import Mathlib

/-!
Verification of the `BotAudioPanel` adaptive audio-visualization panel and the
`MessageContent` message renderer of the pipecat-assistant repository, as a
shallow embedding in Lean 4.

Pixel quantities are modelled as rationals (`ℚ`), which is exact for the
arithmetic the code performs (division, `Math.min`, `Math.max`).
-/

namespace BotAudioPanel

/-- `const barCount = 10` (BotAudioPanel.tsx). -/
def barCount : ℚ := 10

/-- `const maxWidth = 240` inside the resize callback. -/
def totalMaxWidth : ℚ := 240

/-- `const maxBarWidth = maxWidth / (2 * barCount - 1)` inside the resize callback. -/
def maxBarWidth : ℚ := totalMaxWidth / (2 * barCount - 1)

/-- `const maxMaxHeight = 240 / (16 / 9)` inside the resize callback. -/
def maxMaxHeight : ℚ := 240 / (16 / 9)

/-- `const barWidth = Math.max(Math.min(width / (barCount * 2), maxBarWidth), 2)`:
the bar width the resize callback publishes for an observed content width. -/
def barWidthOf (width : ℚ) : ℚ :=
  max (min (width / (barCount * 2)) maxBarWidth) 2

/-- `const maxHeight = Math.max(Math.min(height, maxMaxHeight), 20)`:
the maximum bar height the resize callback publishes for an observed content height. -/
def maxHeightOf (height : ℚ) : ℚ :=
  max (min height maxMaxHeight) 20

/-- The spec's `clamp(x, lo, hi)`: `x` restricted to the interval `[lo, hi]`. -/
def clampSpec (x lo hi : ℚ) : ℚ := min (max x lo) hi

/-- The geometry snapshot the renderer reads: `maxHeight` and `width` state. -/
structure Geometry where
  barWidthPx : ℚ
  maxBarHeightPx : ℚ
  deriving DecidableEq

/-- `useState(48)` / `useState(4)`: the geometry on mount. -/
def initialGeometry : Geometry := { barWidthPx := 4, maxBarHeightPx := 48 }

/-- The geometry published by the resize callback for one observed entry. -/
def resizeGeometry (width height : ℚ) : Geometry :=
  { barWidthPx := barWidthOf width, maxBarHeightPx := maxHeightOf height }

/-- The geometry snapshots the renderer can ever read: the mount default,
and the outcome of any observed resize entry (content rects are non-negative). -/
inductive ReachableGeometry : Geometry → Prop
  | init : ReachableGeometry initialGeometry
  | resize (width height : ℚ) (_hw : 0 ≤ width) (_hh : 0 ≤ height) :
      ReachableGeometry (resizeGeometry width height)

end BotAudioPanel

/-- The `cn(...)` helper's handling of an optional class-name string: a missing
or empty (falsy) value contributes no class token; a non-empty string is kept. -/
def cnOpt : Option String → List String
  | none => []
  | some s => if s = "" then [] else [s]

namespace BotAudioPanel

/-- The lucide icons imported by BotAudioPanel.tsx. -/
inductive Icon where
  | micOff
  | volume2
  | volumeX
  deriving DecidableEq, BEq

/-- The `visualization` prop values: `"bar" | "circle"`. -/
inductive Visualization where
  | bar
  | circle
  deriving DecidableEq, BEq

mutual
/-- A shallow embedding of the React element tree the panel renders. Class
strings are tokenized into lists of class names. -/
inductive UITree where
  | panel (classes : List String) (children : UIForest)
  | panelHeader (children : UIForest)
  | panelTitle (title : String)
  | panelContent (classes : List String) (children : UIForest)
  | div (classes : List String) (children : UIForest)
  | button (variant size : String) (isIcon : Bool) (onClick : Option Nat)
      (disabled : Bool) (classes : List String) (ariaLabel : String)
      (children : UIForest)
  | icon (i : Icon) (size : Nat)
  | span (classes : List String) (text : String)
  | voiceVisualizer (participantType backgroundColor barColor : String)
      (visBarCount : Nat) (barGap : ℚ) (barLineCap : String) (barMaxHeight : ℚ)
      (barOrigin : String) (barWidth : ℚ)

/-- A list of sibling elements. -/
inductive UIForest where
  | nil
  | cons (head : UITree) (tail : UIForest)
end

/-- Concatenation of sibling lists. -/
def UIForest.append : UIForest → UIForest → UIForest
  | .nil, b => b
  | .cons h t, b => .cons h (t.append b)

mutual
/-- All nodes of a tree: the node itself and every descendant. -/
def UITree.nodes : UITree → List UITree
  | t@(.panel _ cs) => t :: cs.nodes
  | t@(.panelHeader cs) => t :: cs.nodes
  | t@(.panelTitle _) => [t]
  | t@(.panelContent _ cs) => t :: cs.nodes
  | t@(.div _ cs) => t :: cs.nodes
  | t@(.button _ _ _ _ _ _ _ cs) => t :: cs.nodes
  | t@(.icon _ _) => [t]
  | t@(.span _ _) => [t]
  | t@(.voiceVisualizer _ _ _ _ _ _ _ _ _) => [t]

/-- All nodes of a sibling list. -/
def UIForest.nodes : UIForest → List UITree
  | .nil => []
  | .cons h t => h.nodes ++ t.nodes
end

/-- Every button anywhere in the tree, as (disabled, accessible label, click handler).
The only buttons the panel renders are mute controls. -/
def UITree.muteButtons (t : UITree) : List (Bool × String × Option Nat) :=
  t.nodes.filterMap fun n =>
    match n with
    | .button _ _ _ onClick disabled _ ariaLabel _ => some (disabled, ariaLabel, onClick)
    | _ => none

/-- Whether an icon with the given identity is rendered anywhere in the tree. -/
def UITree.containsIcon (i : Icon) (t : UITree) : Bool :=
  t.nodes.any fun n =>
    match n with
    | .icon j _ => j == i
    | _ => false

/-- Whether a span with the given literal text is rendered anywhere in the tree. -/
def UITree.containsSpanText (s : String) (t : UITree) : Bool :=
  t.nodes.any fun n =>
    match n with
    | .span _ s2 => s2 == s
    | _ => false

/-- Whether a panel title with the given text is rendered anywhere in the tree. -/
def UITree.containsTitle (s : String) (t : UITree) : Bool :=
  t.nodes.any fun n =>
    match n with
    | .panelTitle s2 => s2 == s
    | _ => false

/-- The class tokens carried by the `PanelContent` container(s) of the tree. -/
def UITree.contentClasses (t : UITree) : List String :=
  (t.nodes.filterMap fun n =>
    match n with
    | .panelContent classes _ => some classes
    | _ => none).flatten

/-- `interface BotAudioPanelProps`. `MediaStreamTrack` handles and callback
identities are opaque and modelled by `Nat` ids; an absent optional prop is
`none`. Defaults (`collapsed = false`, `isMuted = false`) are applied by the
caller of `render` where relevant. -/
structure BotAudioPanelProps where
  audioTracks : Option (List Nat)
  className : Option String
  collapsed : Bool
  visualization : Option Visualization
  isMuted : Bool
  onMuteToggle : Option Nat

/-- The mute/unmute icon button rendered in the expanded header
(`className="ml-auto"`) and, without that class, in the collapsed top strip. -/
def muteButtonNode (onMuteToggle : Option Nat) (track : Option Nat)
    (isMuted : Bool) (classes : List String) : UITree :=
  UITree.button "ghost" "sm" true onMuteToggle track.isNone classes
    (if isMuted then "Unmute bot" else "Mute bot")
    (.cons (if isMuted then UITree.icon .volumeX 16 else UITree.icon .volume2 16) .nil)

/-- The element tree returned by `BotAudioPanel`, as a function of the props,
the bot audio track handle (`usePipecatClientMediaTrack("audio", "bot")`),
and the current `maxHeight` / `width` geometry state. -/
def render (p : BotAudioPanelProps) (track : Option Nat)
    (maxHeight width : ℚ) : UITree :=
  UITree.panel
    (["flex-1", "mt-auto"]
      ++ (if p.collapsed then ["flex-0", "border-none"] else [])
      ++ cnOpt p.className)
    ((if p.collapsed then UIForest.nil
      else UIForest.cons
        (UITree.panelHeader
          (.cons (UITree.panelTitle "Bot Audio")
            (match p.onMuteToggle with
              | some _ => .cons (muteButtonNode p.onMuteToggle track p.isMuted ["ml-auto"]) .nil
              | none => .nil)))
        .nil).append
    (.cons
      (UITree.panelContent
        (["overflow-hidden", "flex-1"]
          ++ (if p.collapsed && !p.onMuteToggle.isSome then ["aspect-video"] else [])
          ++ (if p.collapsed && p.onMuteToggle.isSome then ["min-h-32"] else []))
        (.cons
          (UITree.div
            (["flex", "h-full", "overflow-hidden"]
              ++ (if p.collapsed then ["flex-col"] else [])
              ++ (if !p.collapsed then ["relative"] else []))
            ((if p.collapsed && p.onMuteToggle.isSome then
                UIForest.cons (UITree.div ["flex", "justify-end", "p-2"]
                    (.cons (muteButtonNode p.onMuteToggle track p.isMuted []) .nil))
                  (.cons (UITree.div ["border-t", "border-border"] .nil) .nil)
              else .nil).append
            (.cons
              (match track with
                | some _ =>
                    UITree.div
                      ((if !p.collapsed then ["m-auto"] else [])
                        ++ (if p.collapsed then ["flex-1", "flex", "items-center", "justify-center"] else []))
                      (.cons
                        (UITree.voiceVisualizer "bot" "transparent" "--color-agent"
                          10 width "square" maxHeight "bottom" width)
                        .nil)
                | none =>
                    UITree.div
                      (["text-subtle", "flex", "w-full", "gap-2", "items-center", "justify-center"]
                        ++ (if p.collapsed then ["flex-1"] else []))
                      (.cons (UITree.icon .micOff 16)
                        (if !p.collapsed then
                          .cons (UITree.span ["font-semibold", "text-sm"] "No audio") .nil
                        else .nil)))
              .nil)))
          .nil))
      .nil))

end BotAudioPanel

namespace MessageContent

/-- A message part's `text` field: a JS string, or any non-string value
(`typeof part.text === "string"` is false; the value itself is opaque). -/
inductive PartText where
  | str (s : String)
  | nonString
  deriving DecidableEq

/-- `typeof part.text === "string"`. -/
def PartText.isStr : PartText → Bool
  | .str _ => true
  | .nonString => false

/-- `ConversationMessagePart` as used by MessageContent.tsx: only `text` is read. -/
structure ConversationMessagePart where
  text : PartText
  deriving DecidableEq

/-- The `parts` field of a message: either a JS array of parts, or any value for
which `Array.isArray` is false (the malformed value is opaque, tagged by a string). -/
inductive PartsField where
  | array (parts : List ConversationMessagePart)
  | nonArray (tag : String)
  deriving DecidableEq

/-- `ConversationMessage` as used by MessageContent.tsx: `parts` and `createdAt`. -/
structure ConversationMessage where
  parts : PartsField
  createdAt : Nat
  deriving DecidableEq

/-- `const parts = Array.isArray(message.parts) ? message.parts : []`. -/
def normalizeParts : PartsField → List ConversationMessagePart
  | .array parts => parts
  | .nonArray _ => []

/-- `typeof part.text === "string" && part.text.trim() === ""`. -/
def isBlankPart (p : ConversationMessagePart) : Bool :=
  match p.text with
  | .str s => s.trim == ""
  | .nonString => false

/-- The `classNames` prop of MessageContent. -/
structure ClassNames where
  messageContent : Option String
  thinking : Option String
  time : Option String

/-- A shallow embedding of the elements MessageContent renders. External
collaborators are recorded as leaves holding their inputs: `markdownBlock`
stands for the ReactMarkdown subtree on a text, `timeDiv` for the
`toLocaleTimeString` of the raw timestamp, `thinkingBadge` for the Thinking
element. -/
inductive MsgNode where
  | text (s : String)
  | markdownBlock (s : String)
  | rawValue
  | space
  | thinkingBadge (className : Option String)
  | timeDiv (classes : List String) (createdAt : Nat)
  | contentDiv (classes : List String) (children : List MsgNode)

/-- The fragment rendered for one part, given whether the following part has
string text (`nextIsText`): the part body plus the `" "` separator when both
this part and the next are text. -/
def renderPart (enableMarkdown : Bool) (part : ConversationMessagePart)
    (nextIsText : Bool) : List MsgNode :=
  (match part.text with
    | .str s => if enableMarkdown then [MsgNode.markdownBlock s] else [MsgNode.text s]
    | .nonString => [MsgNode.rawValue])
  ++ (if part.text.isStr && nextIsText then [MsgNode.space] else [])

/-- `parts.map((part, idx) => ...)` with the `parts?.[idx + 1] ?? null` lookahead. -/
def renderParts (enableMarkdown : Bool) : List ConversationMessagePart → List MsgNode
  | [] => []
  | p :: rest =>
      renderPart enableMarkdown p
        (match rest with
          | q :: _ => q.text.isStr
          | [] => false)
      ++ renderParts enableMarkdown rest

/-- The element tree returned by `MessageContent`: the normalized parts, the
Thinking element when the parts are empty or all blank, and the timestamp. The
function is total: every message value, malformed `parts` included, renders. -/
def renderMessageContent (classNames : ClassNames) (message : ConversationMessage)
    (enableMarkdown : Bool) : MsgNode :=
  let parts := normalizeParts message.parts
  MsgNode.contentDiv (["flex", "flex-col", "gap-2"] ++ cnOpt classNames.messageContent)
    (renderParts enableMarkdown parts
      ++ (if parts.isEmpty || parts.all isBlankPart then
            [MsgNode.thinkingBadge classNames.thinking]
          else [])
      ++ [MsgNode.timeDiv (["self-end", "text-xs", "text-gray-500", "mb-1"]
            ++ cnOpt classNames.time) message.createdAt])

end MessageContent

namespace BotAudioPanel

/-- Capping above and then flooring below agrees with `clampSpec` whenever the
floor does not exceed the cap. -/
theorem max_min_eq_clampSpec (x lo hi : ℚ) (h : lo ≤ hi) :
    max (min x hi) lo = clampSpec x lo hi := by
  simp only [clampSpec, min_def, max_def]
  split_ifs <;> linarith

/-- C1: for every observed container width `w ≥ 0`, the bar width published by
the resize callback equals `clamp(w/20, 2, 240/19)`: the raw value
`w/(2*barCount)` with `barCount = 10` is capped above by `240/(2*10-1)` and
floored below at `2`. -/
theorem C1_barWidth_eq_clamp (w : ℚ) (_hw : 0 ≤ w) :
    barWidthOf w = clampSpec (w / 20) 2 (240 / 19) := by
  have hrw : barWidthOf w = max (min (w / 20) (240 / 19)) 2 := by
    simp only [barWidthOf, barCount, maxBarWidth, totalMaxWidth]
    norm_num
  rw [hrw, max_min_eq_clampSpec]
  norm_num

/-- Witness for C1 at `w = 1000`. -/
theorem C1_barWidth_eq_clamp_witness :
    (0 : ℚ) ≤ 1000 ∧ barWidthOf 1000 = clampSpec (1000 / 20) 2 (240 / 19) :=
  ⟨by norm_num, C1_barWidth_eq_clamp 1000 (by norm_num)⟩

/-- C2: for every observed container height `h ≥ 0`, the maximum bar height
published by the resize callback equals `clamp(h, 20, 135)`, where
`135 = 240 / (16/9)`. -/
theorem C2_maxHeight_eq_clamp (h : ℚ) (_hh : 0 ≤ h) :
    maxHeightOf h = clampSpec h 20 135 := by
  have hrw : maxHeightOf h = max (min h 135) 20 := by
    simp only [maxHeightOf, maxMaxHeight]
    norm_num
  rw [hrw, max_min_eq_clampSpec]
  norm_num

/-- Witness for C2 at `h = 200`. -/
theorem C2_maxHeight_eq_clamp_witness :
    (0 : ℚ) ≤ 200 ∧ maxHeightOf 200 = clampSpec 200 20 135 :=
  ⟨by norm_num, C2_maxHeight_eq_clamp 200 (by norm_num)⟩

/-- C3: every geometry snapshot the renderer can read — the mount defaults
(`maxHeight = 48`, `barWidth = 4`) and every resize outcome — satisfies
`2 ≤ barWidthPx ≤ 240/19` and `20 ≤ maxBarHeightPx ≤ 135`. -/
theorem C3_geometry_invariant (g : Geometry) (hg : ReachableGeometry g) :
    2 ≤ g.barWidthPx ∧ g.barWidthPx ≤ 240 / 19 ∧
    20 ≤ g.maxBarHeightPx ∧ g.maxBarHeightPx ≤ 135 := by
  cases hg with
  | init =>
      refine ⟨?_, ?_, ?_, ?_⟩ <;> norm_num [initialGeometry]
  | resize w h hw hh =>
      simp only [resizeGeometry, barWidthOf, maxHeightOf]
      refine ⟨le_max_right _ _, max_le (le_trans (min_le_right _ _) ?_) ?_,
        le_max_right _ _, max_le (le_trans (min_le_right _ _) ?_) ?_⟩
      · simp only [maxBarWidth, totalMaxWidth, barCount]; norm_num
      · norm_num
      · simp only [maxMaxHeight]; norm_num
      · norm_num

/-- Witness for C3 at the initial mount geometry. -/
theorem C3_geometry_invariant_witness :
    2 ≤ initialGeometry.barWidthPx ∧ initialGeometry.barWidthPx ≤ 240 / 19 ∧
    20 ≤ initialGeometry.maxBarHeightPx ∧ initialGeometry.maxBarHeightPx ≤ 135 :=
  C3_geometry_invariant initialGeometry ReachableGeometry.init

/-- C4: with no track, for every combination of `collapsed` and `isMuted` (and
every other prop and geometry), the output contains the muted-mic icon, and it
contains the literal text "No audio" exactly when `collapsed` is false. -/
theorem C4_no_track_rendering (p : BotAudioPanelProps) (mh w : ℚ) :
    UITree.containsIcon .micOff (render p none mh w) = true ∧
    (UITree.containsSpanText "No audio" (render p none mh w) = true ↔
      p.collapsed = false) := by
  rcases p with ⟨a, c, collapsed, v, m, o⟩
  rcases collapsed <;> rcases m <;> rcases o <;>
    simp [render, muteButtonNode, UITree.containsIcon, UITree.containsSpanText,
      UITree.nodes, UIForest.nodes, UIForest.append] <;> decide

/-- C5: for every display mode, mute state, and geometry, every mute control in
the rendered output is disabled exactly when no track is present. -/
theorem C5_mute_disabled_iff_no_track (p : BotAudioPanelProps)
    (track : Option Nat) (mh w : ℚ) :
    ((render p track mh w).muteButtons.all fun b => b.1 == track.isNone) = true := by
  rcases p with ⟨a, c, collapsed, v, m, o⟩
  rcases collapsed <;> rcases m <;> rcases o <;> rcases track <;>
    simp [render, muteButtonNode, UITree.muteButtons,
      UITree.nodes, UIForest.nodes, UIForest.append]

/-- C6: for every display mode and track state, every mute control's accessible
label is "Unmute bot" when `isMuted` is true and "Mute bot" when it is false —
a function of the caller-supplied mute state only. -/
theorem C6_mute_label (p : BotAudioPanelProps) (track : Option Nat) (mh w : ℚ) :
    ((render p track mh w).muteButtons.all fun b =>
      b.2.1 == if p.isMuted then "Unmute bot" else "Mute bot") = true := by
  rcases p with ⟨a, c, collapsed, v, m, o⟩
  rcases collapsed <;> rcases m <;> rcases o <;> rcases track <;>
    simp [render, muteButtonNode, UITree.muteButtons,
      UITree.nodes, UIForest.nodes, UIForest.append]

/-- C7: a mute control renders somewhere exactly when `onMuteToggle` is
supplied; in particular with `collapsed = false` and `onMuteToggle` absent no
mute control renders anywhere and the header still shows the title
"Bot Audio". -/
theorem C7_mute_control_iff_callback (a : Option (List Nat)) (c : Option String)
    (collapsed : Bool) (v : Option Visualization) (m : Bool) (o : Option Nat)
    (track : Option Nat) (mh w : ℚ) :
    ((render ⟨a, c, collapsed, v, m, o⟩ track mh w).muteButtons.isEmpty
        = o.isNone) ∧
    (render ⟨a, c, false, v, m, none⟩ track mh w).muteButtons = [] ∧
    UITree.containsTitle "Bot Audio" (render ⟨a, c, false, v, m, none⟩ track mh w)
        = true := by
  rcases collapsed <;> rcases m <;> rcases o <;> rcases track <;>
    simp [render, muteButtonNode, UITree.muteButtons, UITree.containsTitle,
      UITree.nodes, UIForest.nodes, UIForest.append]

/-- C8: the panel content container carries the fixed 16:9 aspect class
(`aspect-video`) exactly when collapsed without a toggle callback, and the
minimum-height floor (`min-h-32`) exactly when collapsed with a toggle
callback; in expanded mode neither constraint is applied. -/
theorem C8_content_constraints (p : BotAudioPanelProps) (track : Option Nat)
    (mh w : ℚ) :
    ((render p track mh w).contentClasses.contains "aspect-video"
        = (p.collapsed && !p.onMuteToggle.isSome)) ∧
    ((render p track mh w).contentClasses.contains "min-h-32"
        = (p.collapsed && p.onMuteToggle.isSome)) := by
  rcases p with ⟨a, c, collapsed, v, m, o⟩
  rcases collapsed <;> rcases m <;> rcases o <;> rcases track <;>
    simp [render, muteButtonNode, UITree.contentClasses,
      UITree.nodes, UIForest.nodes, UIForest.append]

/-- C10: the rendered output does not depend on the declared `audioTracks` and
`visualization` props — for identical remaining props, track state and
geometry, the trees are identical. -/
theorem C10_unused_props_independence (a a' : Option (List Nat))
    (c : Option String) (collapsed : Bool) (v v' : Option Visualization)
    (m : Bool) (o : Option Nat) (track : Option Nat) (mh w : ℚ) :
    render ⟨a, c, collapsed, v, m, o⟩ track mh w
      = render ⟨a', c, collapsed, v', m, o⟩ track mh w := rfl

end BotAudioPanel

namespace MessageContent

/-- C9: when `message.parts` is not an array, MessageContent renders exactly as
it does with an empty parts array — the malformed collection is treated as
empty, and rendering is total (no failure path). -/
theorem C9_malformed_parts_as_empty (classNames : ClassNames) (tag : String)
    (createdAt : Nat) (enableMarkdown : Bool) :
    renderMessageContent classNames ⟨.nonArray tag, createdAt⟩ enableMarkdown
      = renderMessageContent classNames ⟨.array [], createdAt⟩ enableMarkdown := rfl

end MessageContent
